import Mathlib

/-!
Verification development for the twitter-streams client library.

The embedding models the two source variants found in the repository:
`src/twitterStreams.js` (called the "main" variant below) and
`src/unnamed/part_002` (called the "part_002" variant below).  The stream
supervisor logic (`readStream` with its data / error / timeout listeners,
`__isJSON`, `increaseBackoff`, `resetBackoff`) is line-for-line the same in
both variants apart from the logging destination, so it is embedded once.
The places where the variants differ (abort-controller handling in
`createConnection`, the default-timeout expression in the constructor, the
`url` argument of `__validateRequired`) are embedded separately per variant.
-/

/-- Model of a JavaScript value, as far as the library inspects values:
`undefined`, `null`, booleans, numbers (modelled as integers — every number
the library compares or stores in the claims is integral), strings, plain
objects (association lists of fields, as produced by `JSON.parse`), arrays,
and function values (opaque, identified by name). -/
inductive JSVal where
  | vUndefined : JSVal
  | vNull : JSVal
  | vBool (b : Bool) : JSVal
  | vNum (n : Int) : JSVal
  | vStr (s : String) : JSVal
  | vObj (fields : List (String × JSVal)) : JSVal
  | vArr (items : List JSVal) : JSVal
  | vFun (name : String) : JSVal

/-- String constants used by the embedding (kept as named definitions). -/
def tyUndefined : String := "undefined"

def tyObject : String := "object"

def tyBoolean : String := "boolean"

def tyNumber : String := "number"

def tyString : String := "string"

def tyFunction : String := "function"

def titleKey : String := "title"

def ceTitle : String := "ConnectionException"

def timeoutKey : String := "timeout"

def retryKey : String := "retry"

def baseKey : String := "base"

def customBackoffKey : String := "customBackoff"

def bearerTokenParam : String := "bearer token"

def urlParam : String := "url"

def retryBaseParam : String := "retry.base"

def retryCustomBackoffParam : String := "retry.customBackoff"

def cfgErrMsgHead : String := "Invalid configuration parameter: "

def logKeepAlive : String := "KEEP_ALIVE"

def logTweet : String := "TWEET"

def logConnectionError : String := "CONNECTION_ERROR"

def logTimeoutError : String := "TIMEOUT_ERROR"

def logStreamError : String := "STREAM_ERROR"

def defaultTimeoutName : String := "__defaultTimeout"

/-- JavaScript truthiness: `undefined`, `null`, `false`, `0` and the empty
string are falsy; objects, arrays and functions are always truthy. -/
def jsTruthy : JSVal → Bool
  | .vUndefined => false
  | .vNull => false
  | .vBool b => b
  | .vNum n => decide (n ≠ 0)
  | .vStr s => decide (s ≠ "")
  | .vObj _ => true
  | .vArr _ => true
  | .vFun _ => true

/-- JavaScript `typeof`. -/
def jsTypeof : JSVal → String
  | .vUndefined => tyUndefined
  | .vNull => tyObject
  | .vBool _ => tyBoolean
  | .vNum _ => tyNumber
  | .vStr _ => tyString
  | .vObj _ => tyObject
  | .vArr _ => tyObject
  | .vFun _ => tyFunction

/-- JavaScript `x instanceof Object`: true for objects, arrays and
functions; false for primitives, `null` and `undefined`. -/
def instanceofObject : JSVal → Bool
  | .vObj _ => true
  | .vArr _ => true
  | .vFun _ => true
  | _ => false

/-- JavaScript `x instanceof Function`. -/
def instanceofFunction : JSVal → Bool
  | .vFun _ => true
  | _ => false

/-- JavaScript property access `obj[key]`: the last binding of the key wins
(as `JSON.parse` produces for duplicate keys); any non-object, or a missing
key, yields `undefined`. -/
def jsGetField : JSVal → String → JSVal
  | .vObj fields, k =>
      (fields.foldl (fun acc p => if p.1 = k then some p.2 else acc) none).getD .vUndefined
  | _, _ => .vUndefined

/-- JavaScript strict equality `v === 'lit'` of a value against a string
literal: true exactly when `v` is that string. -/
def jsStrictEqString : JSVal → String → Bool
  | .vStr s, t => s == t
  | _, _ => false

/-- JavaScript `a || b` (value-returning disjunction). -/
def jsOr (a b : JSVal) : JSVal :=
  if jsTruthy a then a else b

/-- Whitespace characters recognised by `JSON.parse`. -/
def isWsChar (c : Char) : Bool :=
  c = ' ' || c = '\n' || c = '\r' || c = '\t'

/-- Drop leading JSON whitespace. -/
def skipWs : List Char → List Char
  | [] => []
  | c :: rest => if isWsChar c then skipWs rest else c :: rest

/-- Parse the body of a JSON string literal (after the opening quote), up to
the closing quote.  Escape sequences are outside the modelled subset and
make the parse fail. -/
def parseStrBody : List Char → Option (List Char × List Char)
  | [] => none
  | c :: rest =>
    if c = '"' then some ([], rest)
    else if c = '\\' then none
    else
      match parseStrBody rest with
      | some (s, r) => some (c :: s, r)
      | none => none

/-- Take a maximal run of decimal digits. -/
def takeDigits : List Char → List Char × List Char
  | [] => ([], [])
  | c :: rest =>
    if c.isDigit then
      let r := takeDigits rest
      (c :: r.1, r.2)
    else ([], c :: rest)

/-- Numeric value of a digit run. -/
def digitsVal (ds : List Char) : Nat :=
  ds.foldl (fun a c => a * 10 + (c.toNat - 48)) 0

/-- Match a literal character sequence. -/
def stripLit : List Char → List Char → Option (List Char)
  | [], rest => some rest
  | p :: ps, c :: cs => if c = p then stripLit ps cs else none
  | _ :: _, [] => none

mutual

/-- One JSON value (integer numbers, escape-free strings, `true`, `false`,
`null`, objects, arrays), fuelled recursive-descent.  Models the subset of
`JSON.parse` the library's chunks exercise. -/
def parseVal : Nat → List Char → Option (JSVal × List Char)
  | 0, _ => none
  | fuel + 1, cs =>
    match skipWs cs with
    | [] => none
    | '"' :: rest =>
      match parseStrBody rest with
      | some (s, r) => some (.vStr (String.mk s), r)
      | none => none
    | '\x7b' :: rest => parseObjBody fuel rest
    | '[' :: rest => parseArrBody fuel rest
    | '-' :: rest =>
      match takeDigits rest with
      | ([], _) => none
      | (ds, r) => some (.vNum (-(Int.ofNat (digitsVal ds))), r)
    | c :: rest =>
      if c.isDigit then
        match takeDigits (c :: rest) with
        | (ds, r) => some (.vNum (Int.ofNat (digitsVal ds)), r)
      else if c = 't' then
        match stripLit ['r', 'u', 'e'] rest with
        | some r => some (.vBool true, r)
        | none => none
      else if c = 'f' then
        match stripLit ['a', 'l', 's', 'e'] rest with
        | some r => some (.vBool false, r)
        | none => none
      else if c = 'n' then
        match stripLit ['u', 'l', 'l'] rest with
        | some r => some (.vNull, r)
        | none => none
      else none

/-- Object body after the opening brace. -/
def parseObjBody : Nat → List Char → Option (JSVal × List Char)
  | 0, _ => none
  | fuel + 1, cs =>
    match skipWs cs with
    | '\x7d' :: rest => some (.vObj [], rest)
    | cs2 =>
      match parseMembers fuel cs2 with
      | some (fields, r) =>
        match skipWs r with
        | '\x7d' :: rest => some (.vObj fields, rest)
        | _ => none
      | none => none

/-- Comma-separated object members. -/
def parseMembers : Nat → List Char → Option (List (String × JSVal) × List Char)
  | 0, _ => none
  | fuel + 1, cs =>
    match skipWs cs with
    | '"' :: rest =>
      match parseStrBody rest with
      | some (k, r) =>
        match skipWs r with
        | ':' :: r2 =>
          match parseVal fuel r2 with
          | some (v, r3) =>
            match skipWs r3 with
            | ',' :: r4 =>
              match parseMembers fuel r4 with
              | some (fields, r5) => some ((String.mk k, v) :: fields, r5)
              | none => none
            | r4 => some ([(String.mk k, v)], r4)
          | none => none
        | _ => none
      | none => none
    | _ => none

/-- Array body after the opening bracket. -/
def parseArrBody : Nat → List Char → Option (JSVal × List Char)
  | 0, _ => none
  | fuel + 1, cs =>
    match skipWs cs with
    | ']' :: rest => some (.vArr [], rest)
    | cs2 =>
      match parseItems fuel cs2 with
      | some (vs, r) =>
        match skipWs r with
        | ']' :: rest => some (.vArr vs, rest)
        | _ => none
      | none => none

/-- Comma-separated array items. -/
def parseItems : Nat → List Char → Option (List JSVal × List Char)
  | 0, _ => none
  | fuel + 1, cs =>
    match parseVal fuel cs with
    | some (v, r) =>
      match skipWs r with
      | ',' :: r2 =>
        match parseItems fuel r2 with
        | some (vs, r3) => some (v :: vs, r3)
        | none => none
      | r2 => some ([v], r2)
    | none => none

end

/-- Model of `JSON.parse` on the modelled subset: parse one value and
require only trailing whitespace to remain; `none` models the thrown
`SyntaxError`. -/
def jsonParse (s : String) : Option JSVal :=
  match parseVal (s.length + 1) s.data with
  | some (v, r) => if skipWs r = [] then some v else none
  | none => none

/-- `TwitterStreams.__isJSON` (identical in both variants): return the
`JSON.parse` result, or `false` when parsing throws. -/
def isJSON (s : String) : JSVal :=
  match jsonParse s with
  | some v => v
  | none => .vBool false

/-- Supervisor state, as held on a `TwitterStreams` instance with a retry
policy: `_retry`, `_base`, `_currentBackoff`, and whether the currently
attached `readStream` listener was given a callback (`cb`). -/
structure SupState where
  retry : Bool
  base : Nat
  currentBackoff : Nat
  hasCb : Bool

/-- Observable effects of processing stream events: handler invocations (in
order, with the parsed object passed), backoff sleeps performed (in order,
in ms), log records (by title), whether a `timeout` event was emitted, and
how many new connections were requested. -/
structure StreamOutput where
  handlerCalls : List JSVal
  sleeps : List Nat
  logs : List String
  emittedTimeout : Bool
  newConnections : Nat

/-- No observable effect. -/
def StreamOutput.empty : StreamOutput :=
  { handlerCalls := [], sleeps := [], logs := [], emittedTimeout := false, newConnections := 0 }

/-- Sequential composition of effects. -/
def StreamOutput.append (a b : StreamOutput) : StreamOutput :=
  { handlerCalls := a.handlerCalls ++ b.handlerCalls
    sleeps := a.sleeps ++ b.sleeps
    logs := a.logs ++ b.logs
    emittedTimeout := a.emittedTimeout || b.emittedTimeout
    newConnections := a.newConnections + b.newConnections }

/-- `TwitterStreams.__defaultBackoffAlgorithm`: `backoff ** 2`. -/
def defaultBackoffAlgorithm (backoff : Nat) : Nat :=
  backoff ^ 2

/-- State of an instance as the constructor leaves it when a retry policy
with a numeric `base` is configured: `_retry = true`, `_base = base`,
`_currentBackoff = _base`; `hasCb` records the callback of the subsequent
`readStream` attachment. -/
def initState (base : Nat) (hasCb : Bool) : SupState :=
  { retry := true, base := base, currentBackoff := base, hasCb := hasCb }

/-- The `timeout` listener of `readStream` (identical in both variants):
with retry configured, sleep `currentBackoff` ms, create a new connection,
apply the backoff function once (`increaseBackoff`), and re-attach
`readStream` to the new stream WITHOUT the caller's callback (the source
calls `this.readStream(retryStream)` with the `cb` argument omitted).
Without retry, nothing happens. -/
def handleTimeout (f : Nat → Nat) (st : SupState) : SupState × StreamOutput :=
  if st.retry then
    ({ st with currentBackoff := f st.currentBackoff, hasCb := false },
     { StreamOutput.empty with sleeps := [st.currentBackoff], newConnections := 1 })
  else (st, StreamOutput.empty)

/-- Classification step of the `data` listener (identical in both
variants): `__isJSON` of the chunk text; a falsy result is a keep-alive
(`resetBackoff`, no callback); a value whose `title` field is strictly
equal to the string `ConnectionException` emits `timeout` (no reset, no
callback); anything else is a tweet (`resetBackoff`, callback invoked with
the parsed object when one was supplied). -/
def classifyData (st : SupState) (s : String) : SupState × StreamOutput :=
  let json := isJSON s
  if !(jsTruthy json) then
    ({ st with currentBackoff := st.base },
     { StreamOutput.empty with logs := [logKeepAlive] })
  else if jsStrictEqString (jsGetField json titleKey) ceTitle then
    (st, { StreamOutput.empty with logs := [logConnectionError], emittedTimeout := true })
  else
    ({ st with currentBackoff := st.base },
     { StreamOutput.empty with
        logs := [logTweet]
        handlerCalls := if st.hasCb then [json] else [] })

/-- Full processing of one `data` event: classification, followed by the
`timeout` listener when the classification emitted `timeout` (Node's
`emit` invokes the listener synchronously). -/
def processData (f : Nat → Nat) (st : SupState) (s : String) : SupState × StreamOutput :=
  let r := classifyData st s
  if r.2.emittedTimeout then
    let r2 := handleTimeout f r.1
    (r2.1, r.2.append r2.2)
  else r

/-- The `error` listener of `readStream`: an `AbortError` (the idle
watchdog cancelled the connection) logs a timeout error and emits
`timeout`; any other stream error is only logged. -/
def handleError (f : Nat → Nat) (st : SupState) (isAbort : Bool) : SupState × StreamOutput :=
  if isAbort then
    let r := handleTimeout f st
    (r.1, StreamOutput.append { StreamOutput.empty with logs := [logTimeoutError] } r.2)
  else (st, { StreamOutput.empty with logs := [logStreamError] })

/-- An externally arriving stream event: a data chunk (already decoded to
text), or an error (abort / non-abort). -/
inductive Event where
  | dataChunk (s : String) : Event
  | errorEvent (isAbort : Bool) : Event

/-- Dispatch one event to the listeners attached by `readStream`. -/
def processEvent (f : Nat → Nat) (st : SupState) : Event → SupState × StreamOutput
  | .dataChunk s => processData f st s
  | .errorEvent b => handleError f st b

/-- Process a sequence of events, accumulating observable effects. -/
def processTrace (f : Nat → Nat) (st : SupState) : List Event → SupState × StreamOutput
  | [] => (st, StreamOutput.empty)
  | e :: es =>
    let r := processEvent f st e
    let r2 := processTrace f r.1 es
    (r2.1, r.2.append r2.2)

/-- `ConfigurationError` (src/Error.js): message built from the offending
parameter name, `code = 400`. -/
structure ConfigurationError where
  message : String
  code : Nat

/-- Constructor of `ConfigurationError`. -/
def mkConfigurationError (p : String) : ConfigurationError :=
  { message := cfgErrMsgHead ++ p, code := 400 }

/-- `__validateRequired` of the part_002 variant: a falsy or non-string
bearer token, then a falsy or non-string url, each throw a
`ConfigurationError` naming the parameter.  (The main variant is the same
without the url check.) -/
def validateRequired (bearerToken url : JSVal) : Except ConfigurationError Unit :=
  if !(jsTruthy bearerToken) || !(jsTypeof bearerToken == tyString) then
    .error (mkConfigurationError bearerTokenParam)
  else if !(jsTruthy url) || !(jsTypeof url == tyString) then
    .error (mkConfigurationError urlParam)
  else .ok ()

/-- `__validateConfig` (identical in both variants): each check guards on
the value being truthy before testing its type, in source order. -/
def validateConfig (config : JSVal) : Except ConfigurationError Unit :=
  if jsTruthy (jsGetField config timeoutKey)
      && !(jsTypeof (jsGetField config timeoutKey) == tyNumber) then
    .error (mkConfigurationError timeoutKey)
  else if jsTruthy (jsGetField config retryKey)
      && !(instanceofObject (jsGetField config retryKey)) then
    .error (mkConfigurationError retryKey)
  else if jsTruthy (jsGetField config retryKey)
      && jsTruthy (jsGetField (jsGetField config retryKey) baseKey)
      && !(jsTypeof (jsGetField (jsGetField config retryKey) baseKey) == tyNumber) then
    .error (mkConfigurationError retryBaseParam)
  else if jsTruthy (jsGetField config retryKey)
      && jsTruthy (jsGetField (jsGetField config retryKey) customBackoffKey)
      && !(instanceofFunction (jsGetField (jsGetField config retryKey) customBackoffKey)) then
    .error (mkConfigurationError retryCustomBackoffParam)
  else .ok ()

/-- The function value `TwitterStreams.__defaultTimeout` itself (a function
object, not its return value). -/
def defaultTimeoutFnVal : JSVal :=
  .vFun defaultTimeoutName

/-- The body of `__defaultTimeout`: it returns 20000 when called. -/
def defaultTimeoutBody : Nat := 20000

/-- `_timeout` as assigned by the main variant's constructor (line 16 of
src/twitterStreams.js): `config.timeout || this.constructor.__defaultTimeout`
— note the missing call parentheses: the fallback is the function value. -/
def constructedTimeoutMain (config : JSVal) : JSVal :=
  jsOr (jsGetField config timeoutKey) defaultTimeoutFnVal

/-- `_timeout` as assigned by the part_002 variant's constructor:
`config.timeout || this.constructor.__defaultTimeout()` — the fallback is
the returned number 20000. -/
def constructedTimeoutPart002 (config : JSVal) : JSVal :=
  jsOr (jsGetField config timeoutKey) (.vNum (Int.ofNat defaultTimeoutBody))

/-- Abort-controller bookkeeping: which controller the instance currently
holds (by identity), and a supply of fresh identities. -/
structure AbortModel where
  controllerId : Option Nat
  nextId : Nat

/-- The main variant's constructor mints ONE `AbortController` (identity 0)
at construction and stores it in `_abortController`. -/
def constructMainAbort : AbortModel :=
  { controllerId := some 0, nextId := 1 }

/-- The part_002 variant's constructor does not create a controller. -/
def constructPart002Abort : AbortModel :=
  { controllerId := none, nextId := 0 }

/-- `refreshAbortController` (part_002 only): replace `_abortController`
with a newly minted controller. -/
def refreshAbortController (st : AbortModel) : AbortModel :=
  { controllerId := some st.nextId, nextId := st.nextId + 1 }

/-- `createConnection` of the main variant: the fetch is wired to
`this.abortController.signal`, with no refresh — the controller stored by
the constructor is reused.  Returns the identity of the signal wired into
the new connection. -/
def createConnectionMain (st : AbortModel) : AbortModel × Option Nat :=
  (st, st.controllerId)

/-- `createConnection` of the part_002 variant: `refreshAbortController()`
runs before the fetch, so a newly minted controller's signal is wired in. -/
def createConnectionPart002 (st : AbortModel) : AbortModel × Option Nat :=
  let st2 := refreshAbortController st
  (st2, st2.controllerId)

/-- Keep-alive classification effect (log only). -/
def keepAliveOut : StreamOutput :=
  { StreamOutput.empty with logs := [logKeepAlive] }

/-- Concrete chunk texts used as witnesses below. -/
def ceChunk : String := "\x7b\"title\":\"ConnectionException\"\x7d"

def tweetChunk : String := "\x7b\"a\":1\x7d"

def aKey : String := "a"

def zeroChunk : String := "0"

def falseChunk : String := "false"

def nullChunk : String := "null"

def quotedEmptyChunk : String := "\"\""

def emptyChunk : String := ""

def crlfChunk : String := "\r\n"

/-- A no-retry instance state (retry policy absent), with a callback
attached. -/
def noRetryState : SupState :=
  { retry := false, base := 5, currentBackoff := 5, hasCb := true }

theorem processTrace_nil (f : Nat → Nat) (st : SupState) :
    processTrace f st [] = (st, StreamOutput.empty) := rfl

theorem processTrace_cons (f : Nat → Nat) (st : SupState) (e : Event) (es : List Event) :
    processTrace f st (e :: es)
      = ((processTrace f (processEvent f st e).1 es).1,
         (processEvent f st e).2.append (processTrace f (processEvent f st e).1 es).2) := rfl

theorem handleError_abort_retry (f : Nat → Nat) (st : SupState) (h : st.retry = true) :
    handleError f st true
      = ({ st with currentBackoff := f st.currentBackoff, hasCb := false },
         { StreamOutput.empty with
            sleeps := [st.currentBackoff]
            logs := [logTimeoutError]
            newConnections := 1 }) := by
  simp [handleError, handleTimeout, h, StreamOutput.append, StreamOutput.empty]

theorem failTrace (f : Nat → Nat) :
    ∀ (n : Nat) (st : SupState), st.retry = true →
      (processTrace f st (List.replicate n (.errorEvent true))).1.currentBackoff
          = f^[n] st.currentBackoff
      ∧ (processTrace f st (List.replicate n (.errorEvent true))).2.sleeps
          = (List.range n).map (fun i => f^[i] st.currentBackoff) := by
  intro n
  induction n with
  | zero =>
    intro st h
    simp [processTrace_nil, StreamOutput.empty]
  | succ n ih =>
    intro st h
    have pe : processEvent f st (Event.errorEvent true)
        = ({ st with currentBackoff := f st.currentBackoff, hasCb := false },
           { StreamOutput.empty with
              sleeps := [st.currentBackoff]
              logs := [logTimeoutError]
              newConnections := 1 }) := handleError_abort_retry f st h
    obtain ⟨ih1, ih2⟩ :=
      ih { st with currentBackoff := f st.currentBackoff, hasCb := false } h
    rw [List.replicate_succ, processTrace_cons, pe]
    constructor
    · rw [Function.iterate_succ_apply]
      exact ih1
    · simp only [StreamOutput.append]
      rw [ih2, List.range_succ_eq_map, List.map_cons, List.map_map]
      have hfun : ((fun i => f^[i] st.currentBackoff) ∘ Nat.succ)
          = fun i => f^[i] (f st.currentBackoff) :=
        funext fun i => Function.iterate_succ_apply f i st.currentBackoff
      rw [hfun]
      rfl

/-- Claim C1: with a retry policy configured, after N consecutive failed
attempts (idle-timeout aborts) with no intervening successful
classification, the current backoff equals the backoff function applied N
times to base, and the sleep before the k-th retry is the function applied
k-1 times to base — with the default squaring function and base 10000 the
first retry waits 10000 ms and the second waits 100000000 ms; and the
current backoff resets to exactly base upon any keep-alive or payload
classification. -/
theorem c1_backoff_growth_and_reset (f : Nat → Nat) (base n : Nat) (withCb : Bool)
    (st : SupState) (s : String)
    (hcls : jsStrictEqString (jsGetField (isJSON s) titleKey) ceTitle = false) :
    (processTrace f (initState base withCb)
        (List.replicate n (.errorEvent true))).1.currentBackoff = f^[n] base
    ∧ (processTrace f (initState base withCb)
        (List.replicate n (.errorEvent true))).2.sleeps
        = (List.range n).map (fun i => f^[i] base)
    ∧ (processTrace defaultBackoffAlgorithm (initState 10000 true)
        (List.replicate 2 (.errorEvent true))).2.sleeps = [10000, 100000000]
    ∧ (processData f st s).1.currentBackoff = st.base := by
  have h := failTrace f n (initState base withCb) rfl
  refine ⟨h.1, h.2, rfl, ?_⟩
  simp only [processData, classifyData]
  by_cases hj : jsTruthy (isJSON s) = true
  · simp [hj, hcls, StreamOutput.empty]
  · simp [hj, StreamOutput.empty]

theorem c1_backoff_growth_and_reset_witness :
    (processTrace (fun x => x * 2) (initState 3 true)
        (List.replicate 2 (.errorEvent true))).1.currentBackoff = (fun x => x * 2)^[2] 3
    ∧ (processTrace (fun x => x * 2) (initState 3 true)
        (List.replicate 2 (.errorEvent true))).2.sleeps
        = (List.range 2).map (fun i => (fun x => x * 2)^[i] 3)
    ∧ (processTrace defaultBackoffAlgorithm (initState 10000 true)
        (List.replicate 2 (.errorEvent true))).2.sleeps = [10000, 100000000]
    ∧ (processData (fun x => x * 2) noRetryState emptyChunk).1.currentBackoff
        = noRetryState.base :=
  c1_backoff_growth_and_reset (fun x => x * 2) 3 2 true noRetryState emptyChunk (by decide)

/-- Claim C3: after an automatic retry reconnection the supervisor
re-attaches `readStream` without the original caller-supplied callback, so
a payload message received on the retry connection does not invoke the
handler that was passed to the original `readStream` call. -/
theorem c3_retry_reattaches_without_callback (f : Nat → Nat) (st : SupState) (s : String)
    (hretry : st.retry = true)
    (hjson : jsTruthy (isJSON s) = true)
    (htitle : jsStrictEqString (jsGetField (isJSON s) titleKey) ceTitle = false) :
    (handleTimeout f st).1.hasCb = false
    ∧ (processData f (handleTimeout f st).1 s).2.handlerCalls = [] := by
  have h1 : (handleTimeout f st).1.hasCb = false := by
    simp [handleTimeout, hretry]
  refine ⟨h1, ?_⟩
  simp only [processData, classifyData]
  simp [hjson, htitle, h1, StreamOutput.empty]

theorem c3_retry_reattaches_without_callback_witness :
    (handleTimeout (fun x => x * 2) (initState 3 true)).1.hasCb = false
    ∧ (processData (fun x => x * 2)
        (handleTimeout (fun x => x * 2) (initState 3 true)).1 tweetChunk).2.handlerCalls = [] :=
  c3_retry_reattaches_without_callback (fun x => x * 2) (initState 3 true) tweetChunk
    rfl (by decide) (by decide)

/-- Claim C4: a chunk whose text parses as a JSON object not carrying the
error marker (`title` not strictly equal to the string
`ConnectionException`) invokes the caller-supplied handler exactly once
with that exact parsed object, and resets the current backoff to base.
(The source awaits the handler before classifying the next chunk; the
model serialises handler invocations accordingly.) -/
theorem c4_payload_invokes_handler_once (f : Nat → Nat) (st : SupState) (s : String)
    (fields : List (String × JSVal))
    (hparse : jsonParse s = some (.vObj fields))
    (htitle : jsStrictEqString (jsGetField (.vObj fields) titleKey) ceTitle = false)
    (hcb : st.hasCb = true) :
    (processData f st s).2.handlerCalls = [.vObj fields]
    ∧ (processData f st s).1.currentBackoff = st.base := by
  have hj : isJSON s = .vObj fields := by
    simp [isJSON, hparse]
  simp only [processData, classifyData]
  rw [hj]
  simp [jsTruthy, htitle, hcb, StreamOutput.empty]

theorem c4_payload_invokes_handler_once_witness :
    (processData (fun x => x * 2) (initState 3 true) tweetChunk).2.handlerCalls
        = [JSVal.vObj [(aKey, JSVal.vNum 1)]]
    ∧ (processData (fun x => x * 2) (initState 3 true) tweetChunk).1.currentBackoff
        = (initState 3 true).base :=
  c4_payload_invokes_handler_once (fun x => x * 2) (initState 3 true) tweetChunk
    [(aKey, JSVal.vNum 1)] rfl (by decide) rfl

/-- Claim C5: a chunk whose text fails JSON parsing (such as an empty line
or whitespace) is classified as keep-alive — the current backoff resets to
base, the payload handler is not invoked, no `timeout` is emitted and no
reconnection is requested, so streaming continues. -/
theorem c5_parse_failure_keepalive (f : Nat → Nat) (st : SupState) (s : String)
    (hparse : jsonParse s = none) :
    processData f st s = ({ st with currentBackoff := st.base }, keepAliveOut)
    ∧ (processData f st s).2.handlerCalls = []
    ∧ (processData f st s).1.currentBackoff = st.base
    ∧ (processData f st s).2.emittedTimeout = false
    ∧ (processData f st s).2.newConnections = 0 := by
  have hj : isJSON s = .vBool false := by
    simp [isJSON, hparse]
  have main : processData f st s = ({ st with currentBackoff := st.base }, keepAliveOut) := by
    simp only [processData, classifyData]
    rw [hj]
    simp [jsTruthy, keepAliveOut, StreamOutput.empty]
  refine ⟨main, ?_, ?_, ?_, ?_⟩ <;>
    simp [main, keepAliveOut, StreamOutput.empty]

theorem c5_parse_failure_keepalive_witness :
    processData (fun x => x * 2) (initState 3 true) emptyChunk
        = ({ initState 3 true with currentBackoff := (initState 3 true).base }, keepAliveOut)
    ∧ (processData (fun x => x * 2) (initState 3 true) emptyChunk).2.handlerCalls = []
    ∧ (processData (fun x => x * 2) (initState 3 true) emptyChunk).1.currentBackoff
        = (initState 3 true).base
    ∧ (processData (fun x => x * 2) (initState 3 true) emptyChunk).2.emittedTimeout = false
    ∧ (processData (fun x => x * 2) (initState 3 true) emptyChunk).2.newConnections = 0 :=
  c5_parse_failure_keepalive (fun x => x * 2) (initState 3 true) emptyChunk rfl

/-- Claim C6: a chunk that parses to a JSON object whose `title` field
equals `ConnectionException` triggers the retry/timeout path (the `timeout`
event is emitted, and with retry configured the backoff sleep is performed)
and does not invoke the payload handler. -/
theorem c6_connection_exception_triggers_retry (f : Nat → Nat) (st : SupState) (s : String)
    (fields : List (String × JSVal))
    (hparse : jsonParse s = some (.vObj fields))
    (htitle : jsStrictEqString (jsGetField (.vObj fields) titleKey) ceTitle = true) :
    (classifyData st s).2.emittedTimeout = true
    ∧ (processData f st s).2.handlerCalls = []
    ∧ (st.retry = true → (processData f st s).2.sleeps = [st.currentBackoff]) := by
  have hj : isJSON s = .vObj fields := by
    simp [isJSON, hparse]
  have hcl : classifyData st s
      = (st, { StreamOutput.empty with logs := [logConnectionError], emittedTimeout := true }) := by
    simp only [classifyData]
    rw [hj]
    simp [jsTruthy, htitle]
  refine ⟨by rw [hcl], ?_, ?_⟩
  · simp only [processData]
    rw [hcl]
    by_cases hr : st.retry = true
    · simp [handleTimeout, hr, StreamOutput.append, StreamOutput.empty]
    · simp [handleTimeout, hr, StreamOutput.append, StreamOutput.empty]
  · intro hr
    simp only [processData]
    rw [hcl]
    simp [handleTimeout, hr, StreamOutput.append, StreamOutput.empty]

theorem c6_connection_exception_triggers_retry_witness :
    (classifyData (initState 4 true) ceChunk).2.emittedTimeout = true
    ∧ (processData defaultBackoffAlgorithm (initState 4 true) ceChunk).2.handlerCalls = []
    ∧ (processData defaultBackoffAlgorithm (initState 4 true) ceChunk).2.sleeps = [4] := by
  have h := c6_connection_exception_triggers_retry defaultBackoffAlgorithm (initState 4 true)
    ceChunk [(titleKey, JSVal.vStr ceTitle)] rfl (by decide)
  exact ⟨h.1, h.2.1, h.2.2 rfl⟩

/-- Claim C2 (evaluation at the failing input): in the main variant
(src/twitterStreams.js) two successive `createConnection` calls wire the
SAME controller signal — the single one minted by the constructor (identity
0) — so aborting the first connection's signal also aborts the later
connection; the part_002 variant mints a fresh, distinct controller per
call (identities 0 then 1). -/
theorem c2_main_variant_reuses_signal :
    (createConnectionMain constructMainAbort).2 = some 0
    ∧ (createConnectionMain (createConnectionMain constructMainAbort).1).2 = some 0
    ∧ (createConnectionPart002 constructPart002Abort).2 = some 0
    ∧ (createConnectionPart002 (createConnectionPart002 constructPart002Abort).1).2 = some 1 :=
  ⟨rfl, rfl, rfl, rfl⟩

/-- Claim C7 (counterexample): with no retry policy, an in-band server
connection error does NOT leave the supervisor in a terminal stopped state:
its state is unchanged, and a payload chunk arriving afterwards on the same
connection is still delivered to the handler (while no backoff sleep was
performed at any point). -/
theorem c7_not_stopped_counterexample :
    (processData defaultBackoffAlgorithm noRetryState ceChunk).1 = noRetryState
    ∧ (processData defaultBackoffAlgorithm noRetryState ceChunk).2.sleeps = []
    ∧ (processData defaultBackoffAlgorithm
        (processData defaultBackoffAlgorithm noRetryState ceChunk).1 tweetChunk).2.handlerCalls
        = [JSVal.vObj [(aKey, JSVal.vNum 1)]] :=
  ⟨rfl, rfl, rfl⟩

/-- Claim C7 (amended): with no retry policy configured, a transport,
timeout, or server-side connection error performs no internal backoff sleep
and requests no reconnection; the supervisor takes no recovery action — the
failure is only logged (TIMEOUT_ERROR for watchdog aborts, STREAM_ERROR for
other transport errors, CONNECTION_ERROR for in-band server errors) and the
supervisor state is unchanged, so the supervisor does not actively stop the
stream and no failure is delivered to the caller beyond these events. -/
theorem c7_no_retry_amended (f : Nat → Nat) (st : SupState)
    (hretry : st.retry = false) :
    handleTimeout f st = (st, StreamOutput.empty)
    ∧ handleError f st true = (st, { StreamOutput.empty with logs := [logTimeoutError] })
    ∧ handleError f st false = (st, { StreamOutput.empty with logs := [logStreamError] })
    ∧ (∀ s fields, jsonParse s = some (.vObj fields) →
        jsStrictEqString (jsGetField (.vObj fields) titleKey) ceTitle = true →
        processData f st s
          = (st, { StreamOutput.empty with
                    logs := [logConnectionError]
                    emittedTimeout := true })) := by
  have ht : handleTimeout f st = (st, StreamOutput.empty) := by
    simp [handleTimeout, hretry]
  refine ⟨ht, ?_, ?_, ?_⟩
  · simp [handleError, ht, StreamOutput.append, StreamOutput.empty]
  · simp [handleError]
  · intro s fields hparse htitle
    have hj : isJSON s = .vObj fields := by
      simp [isJSON, hparse]
    have hcl : classifyData st s
        = (st, { StreamOutput.empty with logs := [logConnectionError], emittedTimeout := true }) := by
      simp only [classifyData]
      rw [hj]
      simp [jsTruthy, htitle]
    simp only [processData]
    rw [hcl]
    simp [ht, StreamOutput.append, StreamOutput.empty]

theorem c7_no_retry_amended_witness :
    handleTimeout defaultBackoffAlgorithm noRetryState = (noRetryState, StreamOutput.empty)
    ∧ handleError defaultBackoffAlgorithm noRetryState true
        = (noRetryState, { StreamOutput.empty with logs := [logTimeoutError] })
    ∧ processData defaultBackoffAlgorithm noRetryState ceChunk
        = (noRetryState,
           { StreamOutput.empty with logs := [logConnectionError], emittedTimeout := true }) := by
  have h := c7_no_retry_amended defaultBackoffAlgorithm noRetryState rfl
  exact ⟨h.1, h.2.1, h.2.2.2 ceChunk [(titleKey, JSVal.vStr ceTitle)] rfl (by decide)⟩

/-- Claim C8 (evaluation at the failing input): in the main variant, a
configuration omitting `timeout` makes `_timeout` the function value
`__defaultTimeout` itself (the call parentheses are missing on line 16 of
src/twitterStreams.js), which is not a number at all — not the 20000 ms
that `__defaultTimeout` returns when called and that the part_002 variant's
constructor (which does call it) assigns. -/
theorem c8_default_timeout_eval :
    constructedTimeoutMain (.vObj []) = defaultTimeoutFnVal
    ∧ jsTypeof (constructedTimeoutMain (.vObj [])) = tyFunction
    ∧ jsTypeof (constructedTimeoutMain (.vObj [])) ≠ tyNumber
    ∧ constructedTimeoutPart002 (.vObj []) = .vNum 20000
    ∧ defaultTimeoutBody = 20000 := by
  refine ⟨rfl, rfl, ?_, rfl, rfl⟩
  decide

/-- Claim C9 (counterexample): a falsy malformed value passes validation
silently — the empty string is a non-numeric `timeout`, yet
`__validateConfig` accepts it (each guard requires the value to be truthy
before checking its type), so construction raises nothing for it. -/
theorem c9_falsy_timeout_counterexample :
    jsTruthy (JSVal.vStr emptyChunk) = false
    ∧ jsTypeof (JSVal.vStr emptyChunk) ≠ tyNumber
    ∧ validateConfig (.vObj [(timeoutKey, JSVal.vStr emptyChunk)]) = .ok ()
    ∧ validateRequired (JSVal.vStr bearerTokenParam) (JSVal.vStr urlParam) = .ok () := by
  refine ⟨rfl, by decide, rfl, rfl⟩

/-- Claim C9 (amended): construction raises a ConfigurationError (code 400,
message naming the exact parameter) for: a missing (falsy) or non-string
bearer token; a non-string url; and — provided the offending value is
truthy — a non-numeric timeout, a non-object retry, a non-numeric
retry.base and a non-function retry.customBackoff.  Falsy malformed values
of the latter four fields pass validation silently. -/
theorem c9_validation_amended :
    (∀ bt u, jsTruthy bt = false ∨ jsTypeof bt ≠ tyString →
        validateRequired bt u = .error (mkConfigurationError bearerTokenParam))
    ∧ (∀ u, jsTypeof u ≠ tyString →
        validateRequired (JSVal.vStr bearerTokenParam) u
          = .error (mkConfigurationError urlParam))
    ∧ (∀ cfg, jsTruthy (jsGetField cfg timeoutKey) = true →
        jsTypeof (jsGetField cfg timeoutKey) ≠ tyNumber →
        validateConfig cfg = .error (mkConfigurationError timeoutKey))
    ∧ (∀ r, jsTruthy r = true → instanceofObject r = false →
        validateConfig (.vObj [(retryKey, r)]) = .error (mkConfigurationError retryKey))
    ∧ (∀ b, jsTruthy b = true → jsTypeof b ≠ tyNumber →
        validateConfig (.vObj [(retryKey, .vObj [(baseKey, b)])])
          = .error (mkConfigurationError retryBaseParam))
    ∧ (∀ g, jsTruthy g = true → instanceofFunction g = false →
        validateConfig (.vObj [(retryKey, .vObj [(customBackoffKey, g)])])
          = .error (mkConfigurationError retryCustomBackoffParam))
    ∧ (∀ p, (mkConfigurationError p).code = 400
        ∧ (mkConfigurationError p).message = cfgErrMsgHead ++ p) := by
  refine ⟨?_, ?_, ?_, ?_, ?_, ?_, fun p => ⟨rfl, rfl⟩⟩
  · intro bt u h
    rcases h with h | h
    · simp [validateRequired, h]
    · simp [validateRequired, beq_iff_eq, h]
  · intro u h
    have h1 : (!(jsTruthy (JSVal.vStr bearerTokenParam))
        || !(jsTypeof (JSVal.vStr bearerTokenParam) == tyString)) = false := by decide
    simp [validateRequired, h1, beq_iff_eq, h]
  · intro cfg h1 h2
    simp [validateConfig, h1, beq_iff_eq, h2]
  · intro r h1 h2
    have e1 : jsGetField (JSVal.vObj [(retryKey, r)]) timeoutKey = JSVal.vUndefined := rfl
    have e2 : jsGetField (JSVal.vObj [(retryKey, r)]) retryKey = r := rfl
    have hvU : jsTruthy JSVal.vUndefined = false := rfl
    simp [validateConfig, e1, e2, hvU, h1, h2]
  · intro b h1 h2
    have e1 : jsGetField (JSVal.vObj [(retryKey, JSVal.vObj [(baseKey, b)])]) timeoutKey
        = JSVal.vUndefined := rfl
    have e2 : jsGetField (JSVal.vObj [(retryKey, JSVal.vObj [(baseKey, b)])]) retryKey
        = JSVal.vObj [(baseKey, b)] := rfl
    have e3 : jsGetField (JSVal.vObj [(baseKey, b)]) baseKey = b := rfl
    have hvU : jsTruthy JSVal.vUndefined = false := rfl
    have hObj : jsTruthy (JSVal.vObj [(baseKey, b)]) = true := rfl
    have hInst : instanceofObject (JSVal.vObj [(baseKey, b)]) = true := rfl
    simp [validateConfig, e1, e2, e3, hvU, hObj, hInst, h1, beq_iff_eq, h2]
  · intro g h1 h2
    have e1 : jsGetField (JSVal.vObj [(retryKey, JSVal.vObj [(customBackoffKey, g)])]) timeoutKey
        = JSVal.vUndefined := rfl
    have e2 : jsGetField (JSVal.vObj [(retryKey, JSVal.vObj [(customBackoffKey, g)])]) retryKey
        = JSVal.vObj [(customBackoffKey, g)] := rfl
    have e3 : jsGetField (JSVal.vObj [(customBackoffKey, g)]) baseKey = JSVal.vUndefined := rfl
    have e4 : jsGetField (JSVal.vObj [(customBackoffKey, g)]) customBackoffKey = g := rfl
    have hvU : jsTruthy JSVal.vUndefined = false := rfl
    have hObj : jsTruthy (JSVal.vObj [(customBackoffKey, g)]) = true := rfl
    have hInst : instanceofObject (JSVal.vObj [(customBackoffKey, g)]) = true := rfl
    simp [validateConfig, e1, e2, e3, e4, hvU, hObj, hInst, h1, h2]

theorem c9_validation_amended_witness :
    validateRequired (JSVal.vNum 5) (JSVal.vStr urlParam)
        = .error (mkConfigurationError bearerTokenParam)
    ∧ validateRequired (JSVal.vStr bearerTokenParam) (JSVal.vNum 9)
        = .error (mkConfigurationError urlParam)
    ∧ validateConfig (.vObj [(timeoutKey, JSVal.vBool true)])
        = .error (mkConfigurationError timeoutKey)
    ∧ validateConfig (.vObj [(retryKey, JSVal.vNum 3)])
        = .error (mkConfigurationError retryKey)
    ∧ validateConfig (.vObj [(retryKey, .vObj [(baseKey, JSVal.vBool true)])])
        = .error (mkConfigurationError retryBaseParam)
    ∧ validateConfig (.vObj [(retryKey, .vObj [(customBackoffKey, JSVal.vNum 7)])])
        = .error (mkConfigurationError retryCustomBackoffParam) := by
  have h := c9_validation_amended
  exact ⟨h.1 (JSVal.vNum 5) (JSVal.vStr urlParam) (Or.inr (by decide)),
    h.2.1 (JSVal.vNum 9) (by decide),
    h.2.2.1 (.vObj [(timeoutKey, JSVal.vBool true)]) (by decide) (by decide),
    h.2.2.2.1 (JSVal.vNum 3) (by decide) (by decide),
    h.2.2.2.2.1 (JSVal.vBool true) (by decide) (by decide),
    h.2.2.2.2.2.1 (JSVal.vNum 7) (by decide) (by decide)⟩

/-- Claim C10: a chunk whose text is valid JSON parsing to a falsy value —
the texts 0, false, null and the quoted empty string — is classified as
keep-alive (the current backoff resets to base, the handler is not invoked,
streaming continues), even though it is a successfully parsed, well-formed
JSON payload: `__isJSON` returns the parsed value and the branch tests its
truthiness. -/
theorem c10_falsy_json_keepalive (f : Nat → Nat) (st : SupState) :
    jsonParse zeroChunk = some (JSVal.vNum 0)
    ∧ jsonParse falseChunk = some (JSVal.vBool false)
    ∧ jsonParse nullChunk = some JSVal.vNull
    ∧ jsonParse quotedEmptyChunk = some (JSVal.vStr emptyChunk)
    ∧ processData f st zeroChunk = ({ st with currentBackoff := st.base }, keepAliveOut)
    ∧ processData f st falseChunk = ({ st with currentBackoff := st.base }, keepAliveOut)
    ∧ processData f st nullChunk = ({ st with currentBackoff := st.base }, keepAliveOut)
    ∧ processData f st quotedEmptyChunk = ({ st with currentBackoff := st.base }, keepAliveOut)
    ∧ keepAliveOut.handlerCalls = []
    ∧ keepAliveOut.emittedTimeout = false :=
  ⟨rfl, rfl, rfl, rfl, rfl, rfl, rfl, rfl, rfl, rfl⟩
